import Mathlib

/-!
Verification of the CRUD backend (FastAPI + SQLAlchemy) consisting of
`app/main.py` (route handlers) and `app/database.py` (engine bootstrap).

The relational store is modelled as an in-memory `DB` record; each route
handler from `app/main.py` becomes a pure function `DB → payload → Outcome`.
A handler that raises `HTTPException(code, detail)` maps to
`Outcome.httpError db code detail` with `db` the state after the implicit
rollback (the session is closed without committing, so the store keeps its
prior contents).  An exception that is not an `HTTPException` (and hence
propagates out of the handler unhandled) maps to `Outcome.raised db`.

The ORM entity classes live in `app/models.py`, which is not part of the
available sources; their columns, unique constraints and the cascade rule
are modelled from the spec where noted.
-/

/-- Modelled from the spec: the `UserDB` entity of the missing `app/models.py`
(surrogate `id`; required `name`; `email` and `student_id` unique). -/
structure User where
  id : Nat
  name : String
  email : String
  student_id : String
deriving Repr, DecidableEq

/-- Modelled from the spec: the `CourseDB` entity of the missing
`app/models.py` (surrogate `id`; opaque uniqueness-checked attributes,
collapsed into a single `key` field). -/
structure Course where
  id : Nat
  key : String
deriving Repr, DecidableEq

/-- Modelled from the spec: the `ProjectDB` entity of the missing
`app/models.py` (surrogate `id`; required `name`; optional `description`;
`owner_id` foreign key to `UserDB`). -/
structure Project where
  id : Nat
  name : String
  description : Option String
  owner_id : Nat
deriving Repr, DecidableEq

/-- The relational store: one table per entity plus the autoincrement
counters that produce generated surrogate keys. -/
structure DB where
  users : List User
  courses : List Course
  projects : List Project
  nextUserId : Nat
  nextCourseId : Nat
  nextProjectId : Nat
deriving Repr, DecidableEq

/-- Result of running one request handler: the store afterwards, the HTTP
status and body on success, or the error.  `httpError` is a raised
`HTTPException` (the unit-of-work is not committed, so the store is the one
passed in); `raised` is an exception that is not an `HTTPException` and
propagates out of the handler unhandled. -/
inductive Outcome (α : Type) where
  | ok (db : DB) (status : Nat) (body : α)
  | httpError (db : DB) (status : Nat) (detail : String)
  | raised (db : DB)
deriving Repr, DecidableEq

/-- Whether the request succeeded (2xx path, no exception). -/
def Outcome.success {α : Type} : Outcome α → Bool
  | .ok _ _ _ => true
  | _ => false

/-- Boolean pairwise-distinctness of the keys `f` extracts, as a unique
index over a table enforces it. -/
def nodupKeys {α β : Type} [BEq β] (f : α → β) : List α → Bool
  | [] => true
  | a :: as => as.all (fun b => !(f a == f b)) && nodupKeys f as

/-- Modelled from the spec: the integrity constraints declared in the
missing `app/models.py` — primary keys, plus `User.email` and
`User.student_id` unique, plus the uniqueness constraint on `Course`.
`db.commit()` raises `IntegrityError` exactly when the flushed state
violates one of them. -/
def integrityOk (db : DB) : Bool :=
  nodupKeys (fun u : User => u.id) db.users &&
  nodupKeys (fun u : User => u.email) db.users &&
  nodupKeys (fun u : User => u.student_id) db.users &&
  nodupKeys (fun c : Course => c.id) db.courses &&
  nodupKeys (fun c : Course => c.key) db.courses &&
  nodupKeys (fun p : Project => p.id) db.projects

/-- `commit_or_rollback` from `app/main.py`: try to commit the pending
state; on `IntegrityError` roll back (the store stays at `orig`) and raise
`HTTPException(409, error_msg)`.  Returns the persisted store and the
raised HTTP error, if any. -/
def commit_or_rollback (orig tentative : DB) (error_msg : String) :
    DB × Option (Nat × String) :=
  if integrityOk tentative then (tentative, none)
  else (orig, some (409, error_msg))

/-- `create_course` from `app/main.py`: insert a course with a generated
id, `commit_or_rollback`, refresh, return it with 201. -/
def create_course (db : DB) (key : String) : Outcome Course :=
  let c : Course := { id := db.nextCourseId, key := key }
  let tentative : DB :=
    { db with courses := db.courses ++ [c], nextCourseId := db.nextCourseId + 1 }
  match commit_or_rollback db tentative "Course already exists" with
  | (d, none) => .ok d 201 c
  | (d, some (s, m)) => .httpError d s m

/-- `list_courses` from `app/main.py`:
`select(CourseDB).order_by(CourseDB.id).limit(limit).offset(offset)` —
SQL applies OFFSET before LIMIT.  The signature defaults are
`limit=10, offset=0`. -/
def list_courses (db : DB) (limit offset : Nat) : Outcome (List Course) :=
  .ok db 200
    ((((List.insertionSort (fun a b : Course => a.id ≤ b.id) db.courses).drop
        offset).take limit))

/-- `list_courses` called with no query parameters: FastAPI fills the
declared defaults `limit = 10`, `offset = 0`. -/
def list_courses_default (db : DB) : Outcome (List Course) :=
  list_courses db 10 0

/-- The `ProjectCreate` request schema (full payload: `name`,
`description`, `owner_id`). -/
structure ProjectCreate where
  name : String
  description : Option String
  owner_id : Nat
deriving Repr, DecidableEq

/-- `create_project` from `app/main.py`: 404 if `owner_id` matches no
user (`db.get(UserDB, project.owner_id)`), else insert with generated id,
`commit_or_rollback`, refresh, 201. -/
def create_project (db : DB) (project : ProjectCreate) : Outcome Project :=
  match db.users.find? (fun u => u.id == project.owner_id) with
  | none => .httpError db 404 "User not found"
  | some _ =>
    let proj : Project :=
      { id := db.nextProjectId, name := project.name,
        description := project.description, owner_id := project.owner_id }
    let tentative : DB :=
      { db with projects := db.projects ++ [proj],
                nextProjectId := db.nextProjectId + 1 }
    match commit_or_rollback db tentative "Project creation failed" with
    | (d, none) => .ok d 201 proj
    | (d, some (s, m)) => .httpError d s m

/-- `get_user_projects` from `app/main.py`:
`select(ProjectDB).where(ProjectDB.owner_id == user_id)`, returned as a
200 list; the handler performs no lookup of the user itself. -/
def get_user_projects (db : DB) (user_id : Nat) : Outcome (List Project) :=
  .ok db 200 (db.projects.filter (fun p => p.owner_id == user_id))

/-- The `UserCreate` request schema (`name`, `email`, `student_id`). -/
structure UserCreate where
  name : String
  email : String
  student_id : String
deriving Repr, DecidableEq

/-- `add_user` from `app/main.py`: insert with generated id, then an
inlined try/commit — on `IntegrityError`, rollback and
`HTTPException(409, "User already exists")`; else refresh and 201. -/
def add_user (db : DB) (payload : UserCreate) : Outcome User :=
  let u : User :=
    { id := db.nextUserId, name := payload.name, email := payload.email,
      student_id := payload.student_id }
  let tentative : DB :=
    { db with users := db.users ++ [u], nextUserId := db.nextUserId + 1 }
  if integrityOk tentative then .ok tentative 201 u
  else .httpError db 409 "User already exists"

/-- `delete_user` from `app/main.py`: 404 if absent; else `db.delete(user)`
— which, per the spec, triggers the `cascade="all, delete-orphan"`
configured on the missing `app/models.py` relationship, deleting the
projects owned by the user — then a plain commit and an empty 204. -/
def delete_user (db : DB) (user_id : Nat) : Outcome Unit :=
  match db.users.find? (fun u => u.id == user_id) with
  | none => .httpError db 404 "User not found"
  | some _ =>
    let newDb : DB :=
      { db with
        users := db.users.filter (fun u => !(u.id == user_id)),
        projects := db.projects.filter (fun p => !(p.owner_id == user_id)) }
    .ok newDb 204 ()

/-- The row obtained from `proj` by `setattr`-ing every key of a full
`ProjectCreate` payload (`model_dump()` yields `name`, `description`,
`owner_id`; `id` is not a payload field). -/
def overwriteProject (proj : Project) (payload : ProjectCreate) : Project :=
  { proj with name := payload.name, description := payload.description,
              owner_id := payload.owner_id }

/-- Shared tail of the two project-update handlers: the session holds the
row for `project_id` mutated to `newProj`; `commit_or_rollback` with the
handler's message, then refresh and 200. -/
def projectCommit (db : DB) (project_id : Nat) (newProj : Project)
    (msg : String) : Outcome Project :=
  match commit_or_rollback db
      { db with projects :=
          db.projects.map (fun pr => if pr.id == project_id then newProj else pr) }
      msg with
  | (d, none) => .ok d 200 newProj
  | (d, some (s, m)) => .httpError d s m

/-- `update_project` (PUT) from `app/main.py`: 404 if the project is
absent; 404 if the payload owner is absent; else `setattr` every payload
field, `commit_or_rollback`, refresh, 200. -/
def update_project (db : DB) (project_id : Nat) (payload : ProjectCreate) :
    Outcome Project :=
  match db.projects.find? (fun pr => pr.id == project_id) with
  | none => .httpError db 404 "Project not found"
  | some proj =>
    match db.users.find? (fun u : User => u.id == payload.owner_id) with
    | none => .httpError db 404 "Owner user not found"
    | some _ =>
      projectCommit db project_id (overwriteProject proj payload)
        "Project update failed"

/-- A PATCH payload for a project: the raw `dict` from the request, split
into the keys that name column attributes of `ProjectDB` (present ⇔ the
key was supplied; `description` can be supplied as `null`, hence the
nested option) and the keys naming no attribute of the entity, which the
handler's `hasattr` test skips. -/
structure ProjectPatch where
  name : Option String
  description : Option (Option String)
  owner_id : Option Nat
  unknown : List String
deriving Repr, DecidableEq

/-- The row obtained from `proj` by `setattr`-ing each supplied key of the
PATCH payload; keys failing `hasattr` are skipped. -/
def applyProjectPatch (proj : Project) (p : ProjectPatch) : Project :=
  { proj with
    name := p.name.getD proj.name,
    description := p.description.getD proj.description,
    owner_id := p.owner_id.getD proj.owner_id }

/-- `patch_project` (PATCH) from `app/main.py`: 404 if the project is
absent; if `owner_id` is among the payload keys, 404 unless it references
an existing user; then apply each payload key that passes `hasattr`,
`commit_or_rollback`, refresh, 200. -/
def patch_project (db : DB) (project_id : Nat) (p : ProjectPatch) :
    Outcome Project :=
  match db.projects.find? (fun pr => pr.id == project_id) with
  | none => .httpError db 404 "Project not found"
  | some proj =>
    match p.owner_id with
    | some oid =>
      match db.users.find? (fun u : User => u.id == oid) with
      | none => .httpError db 404 "Owner user not found"
      | some _ =>
        projectCommit db project_id (applyProjectPatch proj p)
          "Project partial update failed"
    | none =>
      projectCommit db project_id (applyProjectPatch proj p)
        "Project partial update failed"

/-- A PATCH payload for a user: the raw `dict` from the request, split
into keys naming columns of `UserDB` and the keys naming no column. -/
structure UserPatch where
  name : Option String
  email : Option String
  student_id : Option String
  unknown : List String
deriving Repr, DecidableEq

/-- Whether the payload dict is empty (no keys at all). -/
def UserPatch.isEmpty (p : UserPatch) : Bool :=
  p.name.isNone && p.email.isNone && p.student_id.isNone && p.unknown.isEmpty

/-- The row obtained by applying the supplied keys of a user PATCH. -/
def applyUserPatch (u : User) (p : UserPatch) : User :=
  { u with
    name := p.name.getD u.name,
    email := p.email.getD u.email,
    student_id := p.student_id.getD u.student_id }

/-- `patch_user` (PATCH) from `app/main.py`:
`db.query(UserDB).filter(UserDB.id == user_id).update(partial_user)`.
`Query.update` resolves each dict key against the mapped columns of
`UserDB` and raises (unconsumed / unmatched column names) when a key names
no column, and likewise raises when given no values at all; neither error
is an `HTTPException`, so it propagates out of the handler (`raised`).
Otherwise the UPDATE statement executes immediately at that call — outside
the try of `commit_or_rollback` — so if it violates a unique constraint
the `IntegrityError` also propagates unhandled (the session closes
without commit, discarding the write).  Otherwise a rowcount of 0 means
the id matched no row (→ 404), else `commit_or_rollback` commits the
already-executed UPDATE (which violates nothing, so it succeeds) and
`db.get` re-reads the row. -/
def patch_user (db : DB) (user_id : Nat) (p : UserPatch) : Outcome User :=
  if !p.unknown.isEmpty then .raised db
  else if p.isEmpty then .raised db
  else
    match db.users.find? (fun u : User => u.id == user_id) with
    | none => .httpError db 404 "User not found"
    | some u =>
      if integrityOk { db with users := db.users.map (fun v => if v.id == user_id then applyUserPatch u p else v) } then
        .ok { db with users := db.users.map (fun v => if v.id == user_id then applyUserPatch u p else v) }
          200 (applyUserPatch u p)
      else .raised db

/-!
Startup model for `app/database.py`.  The module-level loop

```
for _ in range(RETRIES):
    try:
        engine = create_engine(...)
        with engine.connect(): pass
        break
    except OperationalError:
        time.sleep(DELAY)
SessionLocal = sessionmaker(bind=engine, ...)
```

is modelled over an environment `connectFails : Nat → Bool` telling
whether the k-th `engine.connect()` smoke test raises `OperationalError`.
`create_engine` itself is lazy: it performs no I/O, never raises
`OperationalError`, and binds the module name `engine` before the smoke
test on the same iteration can raise — so once the loop body has run at
least once, `engine` is bound whether or not any connection succeeded,
and `sessionmaker` (which does not connect either) succeeds.
-/

/-- How module import of `app/database.py` ends: `ready k s` — the smoke
test of attempt `k` succeeded and the loop broke, after `s` sleeps of
`DELAY` seconds; `completedUnverified s` — every smoke test failed, but
`engine` was bound by the (lazy) `create_engine` of the last iteration,
so `sessionmaker(bind=engine, ...)` succeeds and import completes with a
never-verified engine; `raisedOperationalError s` — a connection failure
propagated out of the module (what the spec predicts; no path of the code
produces it); `raisedNameError s` — `sessionmaker(bind=engine, ...)`
raised `NameError` because `engine` was never bound (only possible when
the loop body never ran, i.e. `DB_RETRIES` is 0). -/
inductive InitResult where
  | ready (attempt sleeps : Nat)
  | completedUnverified (sleeps : Nat)
  | raisedOperationalError (sleeps : Nat)
  | raisedNameError (sleeps : Nat)
deriving Repr, DecidableEq

/-- Whether module import aborted (an exception escaped, so the process
never reaches a request-serving state). -/
def InitResult.aborted : InitResult → Bool
  | .ready _ _ => false
  | .completedUnverified _ => false
  | _ => true

/-- Whether the connection failure itself (`OperationalError`) is what
propagated out of module import. -/
def InitResult.propagatesConnectionFailure : InitResult → Bool
  | .raisedOperationalError _ => true
  | _ => false

/-- The `for _ in range(...)` body: `engine = create_engine(...)` binds
`engine` (lazily, without raising), then the `with engine.connect()`
smoke test of attempt `k` runs; on success the loop breaks; on
`OperationalError` the loop swallows it, sleeps `DELAY` and continues.
`engineBound` records whether some iteration has already bound `engine`;
when the fuel runs out it decides between a completed import and a
`NameError` at the `sessionmaker` line. -/
def retryLoop (connectFails : Nat → Bool) :
    Nat → Nat → Nat → Bool → InitResult
  | _, 0, sleeps, engineBound =>
    if engineBound then .completedUnverified sleeps
    else .raisedNameError sleeps
  | k, fuel + 1, sleeps, _ =>
    if connectFails k then retryLoop connectFails (k + 1) fuel (sleeps + 1) true
    else .ready k sleeps

/-- Module import of `app/database.py`: run the retry loop from attempt 0
with `engine` not yet bound, then execute `sessionmaker(bind=engine, ...)`. -/
def databaseInit (connectFails : Nat → Bool) (retries : Nat) : InitResult :=
  retryLoop connectFails 0 retries 0 false

/-- Default of `DB_RETRIES` (`os.getenv("DB_RETRIES", "10")`). -/
def RETRIES_DEFAULT : Nat := 10

/-- Default of `DB_RETRY_DELAY` in seconds
(`os.getenv("DB_RETRY_DELAY", "1.5")`). -/
def DELAY_DEFAULT : ℚ := 3 / 2

/-- Total time slept during module import, in seconds. -/
def InitResult.totalDelay (delay : ℚ) : InitResult → ℚ
  | .ready _ s => s * delay
  | .completedUnverified s => s * delay
  | .raisedOperationalError s => s * delay
  | .raisedNameError s => s * delay

/-! Helper lemmas about `nodupKeys`, `integrityOk` and the retry loop. -/

theorem nodupKeys_append_dup {α β : Type} [BEq β] [LawfulBEq β] (f : α → β)
    (u : α) (l : List α) (v : α) (hv : v ∈ l) (heq : f v = f u) :
    nodupKeys f (l ++ [u]) = false := by
  induction l with
  | nil => cases hv
  | cons a as ih =>
    simp only [List.cons_append, nodupKeys]
    rcases List.mem_cons.mp hv with rfl | hv2
    · have hall : ((as ++ [u]).all fun b => !(f v == f b)) = false := by
        rw [Bool.eq_false_iff]
        intro hall
        have hu := List.all_eq_true.mp hall u (by simp)
        simp [heq] at hu
      simp [hall]
    · simp [ih hv2]

theorem nodupKeys_map {α β : Type} [BEq β] (f : α → β) (g : α → α)
    (hg : ∀ a, f (g a) = f a) (l : List α) :
    nodupKeys f (l.map g) = nodupKeys f l := by
  induction l with
  | nil => rfl
  | cons a as ih =>
    simp only [List.map_cons, nodupKeys, List.all_map, Function.comp_def, hg, ih]

theorem integrityOk_replaceProjects (db : DB) (g : Project → Project)
    (hg : ∀ pr, (g pr).id = pr.id) :
    integrityOk { db with projects := db.projects.map g } = integrityOk db := by
  simp only [integrityOk]
  rw [nodupKeys_map (fun p : Project => p.id) g hg]

theorem integrityOk_replaceUsers (db : DB) (g : User → User)
    (hid : ∀ u, (g u).id = u.id) :
    integrityOk { db with users := db.users.map g } =
      (nodupKeys (fun u : User => u.email) (db.users.map g) &&
       nodupKeys (fun u : User => u.student_id) (db.users.map g) &&
       (nodupKeys (fun u : User => u.id) db.users &&
        nodupKeys (fun c : Course => c.id) db.courses &&
        nodupKeys (fun c : Course => c.key) db.courses &&
        nodupKeys (fun p : Project => p.id) db.projects)) := by
  simp only [integrityOk]
  rw [nodupKeys_map (fun u : User => u.id) g hid]
  cases nodupKeys (fun u : User => u.id) db.users <;>
    cases nodupKeys (fun u : User => u.email) (db.users.map g) <;>
    cases nodupKeys (fun u : User => u.student_id) (db.users.map g) <;>
    cases nodupKeys (fun c : Course => c.id) db.courses <;>
    cases nodupKeys (fun c : Course => c.key) db.courses <;>
    cases nodupKeys (fun p : Project => p.id) db.projects <;> rfl

theorem retryLoop_all_fail_bound (connectFails : Nat → Bool) (fuel : Nat) :
    ∀ k sleeps, (∀ i, i < fuel → connectFails (k + i) = true) →
    retryLoop connectFails k fuel sleeps true =
      .completedUnverified (sleeps + fuel) := by
  induction fuel with
  | zero => intro k sleeps _; rfl
  | succ n ih =>
    intro k sleeps h
    have h0 : connectFails k = true := by
      have := h 0 (Nat.succ_pos n)
      simpa using this
    simp only [retryLoop, h0, if_true]
    have := ih (k + 1) (sleeps + 1) (fun i hi => by
      have := h (i + 1) (Nat.succ_lt_succ hi)
      simpa [Nat.add_assoc, Nat.add_comm 1 i] using this)
    rw [this]
    congr 1
    omega

theorem retryLoop_all_fail (connectFails : Nat → Bool) (fuel k sleeps : Nat)
    (h : ∀ i, i < fuel → connectFails (k + i) = true) (hpos : 0 < fuel) :
    retryLoop connectFails k fuel sleeps false =
      .completedUnverified (sleeps + fuel) := by
  cases fuel with
  | zero => omega
  | succ n =>
    have h0 : connectFails k = true := by
      have := h 0 (Nat.succ_pos n)
      simpa using this
    simp only [retryLoop, h0, if_true]
    have := retryLoop_all_fail_bound connectFails n (k + 1) (sleeps + 1)
      (fun i hi => by
        have := h (i + 1) (Nat.succ_lt_succ hi)
        simpa [Nat.add_assoc, Nat.add_comm 1 i] using this)
    rw [this]
    congr 1
    omega

theorem retryLoop_first_success (connectFails : Nat → Bool) (fuel : Nat) :
    ∀ j k sleeps engineBound, j < fuel →
    (∀ i, i < j → connectFails (k + i) = true) →
    connectFails (k + j) = false →
    retryLoop connectFails k fuel sleeps engineBound =
      .ready (k + j) (sleeps + j) := by
  induction fuel with
  | zero => intro j k sleeps engineBound hj; omega
  | succ n ih =>
    intro j k sleeps engineBound hj hfail hsucc
    cases j with
    | zero =>
      simp only [Nat.add_zero] at hsucc
      simp [retryLoop, hsucc]
    | succ m =>
      have h0 : connectFails k = true := by
        have := hfail 0 (Nat.succ_pos m)
        simpa using this
      simp only [retryLoop, h0, if_true]
      have := ih m (k + 1) (sleeps + 1) true (Nat.lt_of_succ_lt_succ hj)
        (fun i hi => by
          have := hfail (i + 1) (Nat.succ_lt_succ hi)
          simpa [Nat.add_assoc, Nat.add_comm 1 i] using this)
        (by
          have : k + 1 + m = k + (m + 1) := by omega
          rw [this]; exact hsucc)
      rw [this]
      congr 1 <;> omega

instance : IsTotal Course (fun a b : Course => a.id ≤ b.id) :=
  ⟨fun a b => Nat.le_total a.id b.id⟩

instance : IsTrans Course (fun a b : Course => a.id ≤ b.id) :=
  ⟨fun _ _ _ hab hbc => Nat.le_trans hab hbc⟩

theorem projectCommit_ok (db : DB) (project_id : Nat) (newProj : Project)
    (msg : String) (hdb : integrityOk db = true)
    (hid : newProj.id = project_id) :
    projectCommit db project_id newProj msg =
      .ok { db with projects :=
              db.projects.map (fun pr => if pr.id == project_id then newProj else pr) }
        200 newProj := by
  have hok : integrityOk
      { db with projects :=
          db.projects.map (fun pr => if pr.id == project_id then newProj else pr) } =
      integrityOk db := by
    apply integrityOk_replaceProjects
    intro pr
    by_cases h : (pr.id == project_id) = true
    · simp only [h, if_true]
      rw [hid, eq_of_beq h]
    · simp only [Bool.not_eq_true] at h
      simp [h]
  unfold projectCommit commit_or_rollback
  rw [hok, hdb]
  simp

theorem projectCommit_ok_inv (db : DB) (project_id : Nat) (newProj : Project)
    (msg : String) (d : DB) (s : Nat) (b : Project)
    (h : projectCommit db project_id newProj msg = .ok d s b) : b = newProj := by
  unfold projectCommit commit_or_rollback at h
  by_cases hok : integrityOk { db with projects := db.projects.map (fun pr => if pr.id == project_id then newProj else pr) } = true
  · rw [if_pos hok] at h
    injection h with h1 h2 h3
    exact h3.symm
  · rw [if_neg hok] at h
    exact Outcome.noConfusion h

theorem patch_project_ok_inv (db : DB) (project_id : Nat) (p : ProjectPatch)
    (d : DB) (s : Nat) (b : Project)
    (h : patch_project db project_id p = .ok d s b) :
    ∃ proj, db.projects.find? (fun pr => pr.id == project_id) = some proj ∧
      b = applyProjectPatch proj p := by
  unfold patch_project at h
  cases hproj : db.projects.find? (fun pr => pr.id == project_id) with
  | none => rw [hproj] at h; exact Outcome.noConfusion h
  | some proj =>
    rw [hproj] at h
    dsimp only at h
    refine ⟨proj, rfl, ?_⟩
    cases hoid : p.owner_id with
    | none =>
      rw [hoid] at h
      exact projectCommit_ok_inv db project_id (applyProjectPatch proj p)
        "Project partial update failed" d s b h
    | some oid =>
      rw [hoid] at h
      dsimp only at h
      cases howner : db.users.find? (fun u : User => u.id == oid) with
      | none => rw [howner] at h; exact Outcome.noConfusion h
      | some w =>
        rw [howner] at h
        exact projectCommit_ok_inv db project_id (applyProjectPatch proj p)
          "Project partial update failed" d s b h

theorem patch_user_ok_inv (db : DB) (user_id : Nat) (p : UserPatch)
    (d : DB) (s : Nat) (b : User)
    (h : patch_user db user_id p = .ok d s b) :
    ∃ u, db.users.find? (fun u : User => u.id == user_id) = some u ∧
      b = applyUserPatch u p := by
  unfold patch_user at h
  by_cases h1 : (!p.unknown.isEmpty) = true
  · rw [if_pos h1] at h; exact Outcome.noConfusion h
  · rw [if_neg h1] at h
    by_cases h2 : p.isEmpty = true
    · rw [if_pos h2] at h; exact Outcome.noConfusion h
    · rw [if_neg h2] at h
      cases hfind : db.users.find? (fun u : User => u.id == user_id) with
      | none => rw [hfind] at h; exact Outcome.noConfusion h
      | some u =>
        rw [hfind] at h
        dsimp only at h
        refine ⟨u, rfl, ?_⟩
        by_cases hok : integrityOk { db with users := db.users.map (fun v => if v.id == user_id then applyUserPatch u p else v) } = true
        · rw [if_pos hok] at h
          injection h with g1 g2 g3
          exact g3.symm
        · rw [if_neg hok] at h
          exact Outcome.noConfusion h

/-! Concrete sample data used by witnesses and counterexamples. -/

def user1 : User :=
  { id := 1, name := "Ann", email := "a@x.com", student_id := "S1" }

def user2 : User :=
  { id := 2, name := "Bob", email := "b@x.com", student_id := "S2" }

def proj1 : Project :=
  { id := 1, name := "A", description := some "B", owner_id := 1 }

def db0 : DB :=
  { users := [user1, user2], courses := [], projects := [proj1],
    nextUserId := 3, nextCourseId := 1, nextProjectId := 2 }

/-- A store holding 15 courses with ids 1..15, stored in shuffled order. -/
def db15 : DB :=
  { users := [], projects := [],
    courses :=
      [⟨7, "c7"⟩, ⟨3, "c3"⟩, ⟨15, "c15"⟩, ⟨1, "c1"⟩, ⟨12, "c12"⟩,
       ⟨9, "c9"⟩, ⟨5, "c5"⟩, ⟨11, "c11"⟩, ⟨2, "c2"⟩, ⟨14, "c14"⟩,
       ⟨6, "c6"⟩, ⟨10, "c10"⟩, ⟨4, "c4"⟩, ⟨13, "c13"⟩, ⟨8, "c8"⟩],
    nextUserId := 1, nextCourseId := 16, nextProjectId := 1 }

/-! Claim theorems. -/

/-- C1: the shared commit helper (`commit_or_rollback`): if committing the
unit-of-work raises a uniqueness/integrity violation, the session is rolled
back — the persisted store is the pre-request one, so no partial write from
the request persists — and a Conflict (409) error carrying the
caller-supplied message is signalled; if the commit succeeds, no error is
raised and the pending state is persisted. -/
theorem C1_commit_helper (orig tentative : DB) (error_msg : String) :
    (integrityOk tentative = false →
      commit_or_rollback orig tentative error_msg =
        (orig, some (409, error_msg))) ∧
    (integrityOk tentative = true →
      commit_or_rollback orig tentative error_msg = (tentative, none)) := by
  constructor <;> intro h <;> simp [commit_or_rollback, h]

theorem C1_commit_helper_witness :
    commit_or_rollback db0 { db0 with users := [user1, user1] }
        "User update failed (duplicate email or student_id)" =
      (db0, some (409, "User update failed (duplicate email or student_id)")) ∧
    commit_or_rollback db0 db0 "Course already exists" = (db0, none) :=
  ⟨(C1_commit_helper db0 { db0 with users := [user1, user1] }
      "User update failed (duplicate email or student_id)").1 (by decide),
   (C1_commit_helper db0 db0 "Course already exists").2 (by decide)⟩

/-- C5: `add_user` on a payload whose `email` or `student_id` equals that
of an already-stored user answers 409 ("User already exists") and the
store — including the previously stored user — is unchanged: the
attempted insert is rolled back. -/
theorem C5_duplicate_user_conflict (db : DB) (payload : UserCreate)
    (v : User) (hv : v ∈ db.users)
    (hdup : v.email = payload.email ∨ v.student_id = payload.student_id) :
    add_user db payload = .httpError db 409 "User already exists" := by
  have hbad : integrityOk
      { db with
        users := db.users ++
          [({ id := db.nextUserId, name := payload.name,
              email := payload.email, student_id := payload.student_id } : User)],
        nextUserId := db.nextUserId + 1 } = false := by
    rcases hdup with h | h
    · have hfalse := nodupKeys_append_dup (fun u : User => u.email)
        ({ id := db.nextUserId, name := payload.name, email := payload.email,
           student_id := payload.student_id } : User) db.users v hv
        (by simpa using h)
      simp [integrityOk, hfalse]
    · have hfalse := nodupKeys_append_dup (fun u : User => u.student_id)
        ({ id := db.nextUserId, name := payload.name, email := payload.email,
           student_id := payload.student_id } : User) db.users v hv
        (by simpa using h)
      simp [integrityOk, hfalse]
  simp [add_user, hbad]

theorem C5_duplicate_user_conflict_witness :
    add_user db0 { name := "Eve", email := "a@x.com", student_id := "S9" } =
      .httpError db0 409 "User already exists" :=
  C5_duplicate_user_conflict db0
    { name := "Eve", email := "a@x.com", student_id := "S9" } user1
    (by decide) (Or.inl rfl)

/-- C6: `create_project` on a payload whose `owner_id` references no
existing user answers 404 ("User not found") and the store is unchanged —
no Project record is persisted. -/
theorem C6_create_project_unknown_owner (db : DB) (project : ProjectCreate)
    (h : ∀ u ∈ db.users, u.id ≠ project.owner_id) :
    create_project db project = .httpError db 404 "User not found" := by
  have hfind : db.users.find? (fun u => u.id == project.owner_id) = none :=
    List.find?_eq_none.mpr (fun u hu => by simpa using h u hu)
  simp [create_project, hfind]

theorem C6_create_project_unknown_owner_witness :
    create_project db0 { name := "P", description := none, owner_id := 999 } =
      .httpError db0 404 "User not found" :=
  C6_create_project_unknown_owner db0
    { name := "P", description := none, owner_id := 999 } (by decide)

/-- C10: `get_user_projects` never fails: for every store and every user
id — including ids for which no User row exists, since the handler never
looks the user up — it answers 200 with exactly the projects whose
`owner_id` equals that id, and never an error. -/
theorem C10_user_projects_no_existence_check (db : DB) (user_id : Nat) :
    get_user_projects db user_id =
      .ok db 200 (db.projects.filter (fun p => p.owner_id == user_id)) ∧
    (get_user_projects db user_id).success = true :=
  ⟨rfl, rfl⟩

/-- A user PATCH payload consisting of a single key that matches no column
of `UserDB`. -/
def patchUnknown : UserPatch :=
  { name := none, email := none, student_id := none, unknown := ["nickname"] }

/-- C2 counterexample: PATCH on an existing user (id 1 in `db0`) with the
payload `{"nickname": ...}` — a key with no matching attribute — does not
silently ignore the key and succeed, as the claim states: `Query.update`
raises on the unmatched column name, the exception propagates unhandled,
and the request fails. -/
theorem C2_counterexample :
    patch_user db0 1 patchUnknown = .raised db0 ∧
    (patch_user db0 1 patchUnknown).success = false :=
  ⟨rfl, rfl⟩

/-- C2 (amended): PATCH modifies only the fields explicitly present in
the payload and leaves absent fields untouched, for both entities.  For a
Project, payload keys with no matching attribute are silently ignored (the
outcome is the same with or without them).  For a User, however, a payload
key matching no column makes `Query.update` raise an unhandled exception —
the request fails rather than ignoring the key; payloads whose keys all
match columns behave as claimed. -/
theorem C2_patch_modifies_only_supplied_fields :
    (∀ (db : DB) (project_id : Nat) (p : ProjectPatch) (ks : List String),
      patch_project db project_id { p with unknown := ks } =
        patch_project db project_id p) ∧
    (∀ (db : DB) (project_id : Nat) (p : ProjectPatch) (d : DB) (s : Nat)
        (b : Project),
      patch_project db project_id p = Outcome.ok d s b →
      ∃ proj, db.projects.find? (fun pr => pr.id == project_id) = some proj ∧
        b.id = proj.id ∧
        (p.name = none → b.name = proj.name) ∧
        (p.description = none → b.description = proj.description) ∧
        (p.owner_id = none → b.owner_id = proj.owner_id) ∧
        (∀ x, p.name = some x → b.name = x) ∧
        (∀ x, p.description = some x → b.description = x) ∧
        (∀ x, p.owner_id = some x → b.owner_id = x)) ∧
    (∀ (db : DB) (user_id : Nat) (p : UserPatch),
      p.unknown ≠ [] → patch_user db user_id p = .raised db) ∧
    (∀ (db : DB) (user_id : Nat) (p : UserPatch) (d : DB) (s : Nat) (b : User),
      patch_user db user_id p = Outcome.ok d s b →
      ∃ u, db.users.find? (fun v : User => v.id == user_id) = some u ∧
        b.id = u.id ∧
        (p.name = none → b.name = u.name) ∧
        (p.email = none → b.email = u.email) ∧
        (p.student_id = none → b.student_id = u.student_id) ∧
        (∀ x, p.name = some x → b.name = x) ∧
        (∀ x, p.email = some x → b.email = x) ∧
        (∀ x, p.student_id = some x → b.student_id = x)) := by
  refine ⟨?_, ?_, ?_, ?_⟩
  · intro db project_id p ks
    rfl
  · intro db project_id p d s b h
    obtain ⟨proj, hfind, hb⟩ := patch_project_ok_inv db project_id p d s b h
    subst hb
    refine ⟨proj, hfind, rfl, ?_, ?_, ?_, ?_, ?_, ?_⟩
    · intro h; simp [applyProjectPatch, h]
    · intro h; simp [applyProjectPatch, h]
    · intro h; simp [applyProjectPatch, h]
    · intro x h; simp [applyProjectPatch, h]
    · intro x h; simp [applyProjectPatch, h]
    · intro x h; simp [applyProjectPatch, h]
  · intro db user_id p h
    cases hp : p.unknown with
    | nil => exact absurd hp h
    | cons a as => simp [patch_user, hp]
  · intro db user_id p d s b h
    obtain ⟨u, hfind, hb⟩ := patch_user_ok_inv db user_id p d s b h
    subst hb
    refine ⟨u, hfind, rfl, ?_, ?_, ?_, ?_, ?_, ?_⟩
    · intro h; simp [applyUserPatch, h]
    · intro h; simp [applyUserPatch, h]
    · intro h; simp [applyUserPatch, h]
    · intro x h; simp [applyUserPatch, h]
    · intro x h; simp [applyUserPatch, h]
    · intro x h; simp [applyUserPatch, h]

/-- A legal user PATCH payload supplying only a new email. -/
def pEmail : UserPatch :=
  { name := none, email := some "ann@new.com", student_id := none,
    unknown := [] }

/-- The user row of `db0` after `pEmail` is applied to user 1. -/
def userE : User :=
  { id := 1, name := "Ann", email := "ann@new.com", student_id := "S1" }

/-- The store `db0` after `pEmail` is applied to user 1. -/
def dbE : DB := { db0 with users := [userE, user2] }

theorem C2_patch_modifies_only_supplied_fields_witness :
    patch_user db0 1 ⟨none, none, none, ["age"]⟩ = .raised db0 ∧
    (∃ u, db0.users.find? (fun v : User => v.id == 1) = some u ∧
      userE.id = u.id ∧
      (pEmail.name = none → userE.name = u.name) ∧
      (pEmail.email = none → userE.email = u.email) ∧
      (pEmail.student_id = none → userE.student_id = u.student_id) ∧
      (∀ x, pEmail.name = some x → userE.name = x) ∧
      (∀ x, pEmail.email = some x → userE.email = x) ∧
      (∀ x, pEmail.student_id = some x → userE.student_id = x)) :=
  ⟨C2_patch_modifies_only_supplied_fields.2.2.1 db0 1
      ⟨none, none, none, ["age"]⟩ (by decide),
   C2_patch_modifies_only_supplied_fields.2.2.2 db0 1 pEmail dbE 200 userE
      (by decide)⟩

/-- C4: `delete_user` on an existing id deletes that user and, via the
cascade, every project whose `owner_id` equals it — afterwards no row with
that user id and no orphaned project remains, while every other user and
project survives and courses are untouched — answering 204 with an empty
body; on an absent id it answers 404 and the store is unchanged. -/
theorem C4_delete_user_cascade (db : DB) (user_id : Nat) :
    (db.users.find? (fun u => u.id == user_id) = none →
      delete_user db user_id = .httpError db 404 "User not found") ∧
    (∀ u, db.users.find? (fun u => u.id == user_id) = some u →
      ∃ d, delete_user db user_id = .ok d 204 () ∧
        (∀ v ∈ d.users, v.id ≠ user_id) ∧
        (∀ p ∈ d.projects, p.owner_id ≠ user_id) ∧
        (∀ v ∈ db.users, v.id ≠ user_id → v ∈ d.users) ∧
        (∀ p ∈ db.projects, p.owner_id ≠ user_id → p ∈ d.projects) ∧
        d.courses = db.courses) := by
  constructor
  · intro h
    simp [delete_user, h]
  · intro u hu
    refine ⟨{ db with
        users := db.users.filter (fun u => !(u.id == user_id)),
        projects := db.projects.filter (fun p => !(p.owner_id == user_id)) },
      by simp [delete_user, hu], ?_, ?_, ?_, ?_, rfl⟩
    · intro v hvmem
      have := (List.mem_filter.mp hvmem).2
      simpa using this
    · intro p hpmem
      have := (List.mem_filter.mp hpmem).2
      simpa using this
    · intro v hvmem hid
      exact List.mem_filter.mpr ⟨hvmem, by simpa using hid⟩
    · intro p hpmem hown
      exact List.mem_filter.mpr ⟨hpmem, by simpa using hown⟩

theorem C4_delete_user_cascade_witness :
    delete_user db0 99 = .httpError db0 404 "User not found" ∧
    (∃ d, delete_user db0 1 = .ok d 204 () ∧
      (∀ v ∈ d.users, v.id ≠ 1) ∧
      (∀ p ∈ d.projects, p.owner_id ≠ 1) ∧
      (∀ v ∈ db0.users, v.id ≠ 1 → v ∈ d.users) ∧
      (∀ p ∈ db0.projects, p.owner_id ≠ 1 → p ∈ d.projects) ∧
      d.courses = db0.courses) :=
  ⟨(C4_delete_user_cascade db0 99).1 (by decide),
   (C4_delete_user_cascade db0 1).2 user1 (by decide)⟩

/-- C9: `list_courses` answers the stored courses ordered by id
ascending, skipping the first `offset` and returning at most `limit` of
them (the handler sorts some permutation of the table and slices it);
calling it with no parameters uses the declared defaults limit=10,
offset=0; and on a store of 15 courses with ids 1..15, limit=5 and
offset=10 return exactly the five records with the 11th through 15th
smallest ids. -/
theorem C9_list_courses_pagination :
    (∀ (db : DB) (limit offset : Nat), ∃ s : List Course,
        s.Perm db.courses ∧
        List.Sorted (fun a b : Course => a.id ≤ b.id) s ∧
        list_courses db limit offset = .ok db 200 ((s.drop offset).take limit)) ∧
    (∀ db : DB, list_courses_default db = list_courses db 10 0) ∧
    list_courses db15 5 10 =
      .ok db15 200
        [⟨11, "c11"⟩, ⟨12, "c12"⟩, ⟨13, "c13"⟩, ⟨14, "c14"⟩, ⟨15, "c15"⟩] := by
  refine ⟨fun db limit offset => ⟨_, ?_, ?_, rfl⟩, fun db => rfl, ?_⟩
  · exact List.perm_insertionSort (fun a b : Course => a.id ≤ b.id) db.courses
  · exact List.sorted_insertionSort (fun a b : Course => a.id ≤ b.id) db.courses
  · rfl

/-- C3 counterexample: with the default retry count 10 and every
connection attempt failing, module import of `app/database.py` simply
completes — `engine = create_engine(...)` bound the name before the smoke
test could raise, every `OperationalError` was swallowed by the loop, and
`sessionmaker(bind=engine, ...)` succeeds.  Contrary to the claim, the
failure is not propagated and process startup does not abort. -/
theorem C3_counterexample :
    databaseInit (fun _ => true) RETRIES_DEFAULT = .completedUnverified 10 ∧
    (databaseInit (fun _ => true) RETRIES_DEFAULT).propagatesConnectionFailure
      = false ∧
    (databaseInit (fun _ => true) RETRIES_DEFAULT).aborted = false := by
  refine ⟨rfl, ?_, ?_⟩ <;> rfl

/-- C3 (amended): the connection is attempted up to the configured retry
count, sleeping the fixed delay after each failed attempt; if every
attempt fails with a connection error, the failure is neither propagated
nor fatal: each `OperationalError` is swallowed, `engine` is already
bound by the lazy `create_engine` that precedes the smoke test, and
`sessionmaker(bind=engine, ...)` succeeds, so module import completes and
startup proceeds with a never-verified engine instead of aborting.  If
some attempt succeeds within the budget, startup completes with the
engine of the first successful attempt. -/
theorem C3_startup_retry (connectFails : Nat → Bool) (retries : Nat) :
    ((∀ k, k < retries → connectFails k = true) → 0 < retries →
      databaseInit connectFails retries = .completedUnverified retries ∧
      (databaseInit connectFails retries).aborted = false ∧
      (databaseInit connectFails retries).propagatesConnectionFailure = false ∧
      (databaseInit connectFails retries).totalDelay DELAY_DEFAULT =
        retries * DELAY_DEFAULT) ∧
    (∀ j, j < retries → (∀ i, i < j → connectFails i = true) →
      connectFails j = false →
      databaseInit connectFails retries = .ready j j) := by
  constructor
  · intro h hpos
    have hrun : databaseInit connectFails retries =
        .completedUnverified retries := by
      have := retryLoop_all_fail connectFails retries 0 0
        (fun i hi => by simpa using h i hi) hpos
      simpa [databaseInit] using this
    refine ⟨hrun, ?_, ?_, ?_⟩ <;> rw [hrun] <;> rfl
  · intro j hj hfail hsucc
    have := retryLoop_first_success connectFails retries j 0 0 false hj
      (fun i hi => by simpa using hfail i hi) (by simpa using hsucc)
    simpa [databaseInit] using this

theorem C3_startup_retry_witness :
    databaseInit (fun _ => true) 10 = .completedUnverified 10 ∧
    (databaseInit (fun _ => true) 10).aborted = false ∧
    (databaseInit (fun _ => true) 10).propagatesConnectionFailure = false ∧
    databaseInit (fun k => decide (k < 3)) 10 = .ready 3 3 :=
  ⟨((C3_startup_retry (fun _ => true) 10).1 (fun _ _ => rfl) (by decide)).1,
   ((C3_startup_retry (fun _ => true) 10).1 (fun _ _ => rfl) (by decide)).2.1,
   ((C3_startup_retry (fun _ => true) 10).1 (fun _ _ => rfl) (by decide)).2.2.1,
   (C3_startup_retry (fun k => decide (k < 3)) 10).2 3 (by decide)
     (fun i hi => decide_eq_true hi) (by decide)⟩

/-- C7: `update_project` (PUT): 404 if the project does not exist; else
404 if the payload `owner_id` references no user; else — on a store
satisfying its integrity constraints — every payload field of the row is
overwritten with the payload values (the id is untouched), the change is
committed, and everything else in the store is untouched.  (The 409 branch
on constraint violation is the `commit_or_rollback` of C1.) -/
theorem C7_put_project (db : DB) (project_id : Nat) (payload : ProjectCreate)
    (hdb : integrityOk db = true) :
    (db.projects.find? (fun pr => pr.id == project_id) = none →
      update_project db project_id payload =
        .httpError db 404 "Project not found") ∧
    (∀ proj, db.projects.find? (fun pr => pr.id == project_id) = some proj →
      db.users.find? (fun u : User => u.id == payload.owner_id) = none →
      update_project db project_id payload =
        .httpError db 404 "Owner user not found") ∧
    (∀ proj owner,
      db.projects.find? (fun pr => pr.id == project_id) = some proj →
      db.users.find? (fun u : User => u.id == payload.owner_id) = some owner →
      ∃ d b, update_project db project_id payload = .ok d 200 b ∧
        b.name = payload.name ∧ b.description = payload.description ∧
        b.owner_id = payload.owner_id ∧ b.id = proj.id ∧
        b ∈ d.projects ∧
        (∀ pr ∈ db.projects, pr.id ≠ project_id → pr ∈ d.projects) ∧
        d.users = db.users ∧ d.courses = db.courses) := by
  refine ⟨?_, ?_, ?_⟩
  · intro h
    simp [update_project, h]
  · intro proj hproj howner
    simp [update_project, hproj, howner]
  · intro proj owner hproj howner
    have hbeq : (proj.id == project_id) = true :=
      @List.find?_some Project (fun pr => pr.id == project_id) proj
        db.projects hproj
    have hpid : proj.id = project_id := eq_of_beq hbeq
    have hcommit := projectCommit_ok db project_id
      (overwriteProject proj payload) "Project update failed" hdb
      (by simp [overwriteProject, hpid])
    refine ⟨{ db with projects := db.projects.map (fun pr => if pr.id == project_id then overwriteProject proj payload else pr) },
      overwriteProject proj payload, ?_, rfl, rfl, rfl, rfl, ?_, ?_,
      rfl, rfl⟩
    · simp only [update_project, hproj, howner]
      exact hcommit
    · exact List.mem_map.mpr ⟨proj, List.mem_of_find?_eq_some hproj,
        by simp [hbeq]⟩
    · intro pr hpr hne
      exact List.mem_map.mpr ⟨pr, hpr, by simp [hne]⟩

/-- C8: PATCH on an existing project changes only the supplied fields and
leaves every other field at its prior value (id included); if `owner_id`
is among the supplied fields and references no existing user the result is
404 and nothing changes (the store is returned as it was); otherwise — on
a store satisfying its integrity constraints — the change commits, the
untouched projects survive, and users and courses are untouched. -/
theorem C8_patch_project_frame (db : DB) (project_id : Nat) (p : ProjectPatch)
    (hdb : integrityOk db = true) :
    ∀ proj, db.projects.find? (fun pr => pr.id == project_id) = some proj →
      ((∀ oid, p.owner_id = some oid →
          db.users.find? (fun u : User => u.id == oid) = none →
          patch_project db project_id p =
            .httpError db 404 "Owner user not found") ∧
       ((p.owner_id = none ∨ ∃ oid owner, p.owner_id = some oid ∧
            db.users.find? (fun u : User => u.id == oid) = some owner) →
        ∃ d b, patch_project db project_id p = .ok d 200 b ∧
          b.id = proj.id ∧
          (p.name = none → b.name = proj.name) ∧
          (p.description = none → b.description = proj.description) ∧
          (p.owner_id = none → b.owner_id = proj.owner_id) ∧
          (∀ x, p.name = some x → b.name = x) ∧
          (∀ x, p.description = some x → b.description = x) ∧
          (∀ x, p.owner_id = some x → b.owner_id = x) ∧
          b ∈ d.projects ∧
          (∀ pr ∈ db.projects, pr.id ≠ project_id → pr ∈ d.projects) ∧
          d.users = db.users ∧ d.courses = db.courses)) := by
  intro proj hproj
  have hbeq : (proj.id == project_id) = true :=
    @List.find?_some Project (fun pr => pr.id == project_id) proj
      db.projects hproj
  have hpid : proj.id = project_id := eq_of_beq hbeq
  have hcommit := projectCommit_ok db project_id (applyProjectPatch proj p)
    "Project partial update failed" hdb (by simp [applyProjectPatch, hpid])
  constructor
  · intro oid hoid howner
    simp [patch_project, hproj, hoid, howner]
  · intro hok
    have hrun : patch_project db project_id p =
        projectCommit db project_id (applyProjectPatch proj p)
          "Project partial update failed" := by
      rcases hok with hnone | ⟨oid, owner, hoid, howner⟩
      · simp [patch_project, hproj, hnone]
      · simp [patch_project, hproj, hoid, howner]
    refine ⟨{ db with projects := db.projects.map (fun pr => if pr.id == project_id then applyProjectPatch proj p else pr) },
      applyProjectPatch proj p, ?_, rfl, ?_, ?_, ?_, ?_, ?_, ?_, ?_, ?_,
      rfl, rfl⟩
    · rw [hrun]; exact hcommit
    · intro h; simp [applyProjectPatch, h]
    · intro h; simp [applyProjectPatch, h]
    · intro h; simp [applyProjectPatch, h]
    · intro x h; simp [applyProjectPatch, h]
    · intro x h; simp [applyProjectPatch, h]
    · intro x h; simp [applyProjectPatch, h]
    · exact List.mem_map.mpr ⟨proj, List.mem_of_find?_eq_some hproj,
        by simp [hbeq]⟩
    · intro pr hpr hne
      exact List.mem_map.mpr ⟨pr, hpr, by simp [hne]⟩

/-- The spec scenario payload: PATCH `{"name": "C"}`. -/
def pNameC : ProjectPatch :=
  { name := some "C", description := none, owner_id := none, unknown := [] }

/-- A PATCH payload whose `owner_id` references no user. -/
def pBadOwner : ProjectPatch :=
  { name := none, description := none, owner_id := some 999, unknown := [] }

theorem C8_patch_project_frame_witness :
    patch_project db0 1 pBadOwner =
      .httpError db0 404 "Owner user not found" ∧
    patch_project db0 1 pNameC =
      .ok { db0 with projects := [⟨1, "C", some "B", 1⟩] } 200
        ⟨1, "C", some "B", 1⟩ :=
  ⟨((C8_patch_project_frame db0 1 pBadOwner (by decide)) proj1
      (by decide)).1 999 rfl (by decide),
   by decide⟩

theorem C7_put_project_witness :
    ∃ d b,
      update_project db0 1
          { name := "New", description := none, owner_id := 2 } =
        .ok d 200 b ∧
      b.name = "New" ∧ b.description = none ∧ b.owner_id = 2 ∧
      b.id = proj1.id ∧ b ∈ d.projects ∧
      (∀ pr ∈ db0.projects, pr.id ≠ 1 → pr ∈ d.projects) ∧
      d.users = db0.users ∧ d.courses = db0.courses :=
  (C7_put_project db0 1 { name := "New", description := none, owner_id := 2 }
    (by decide)).2.2 proj1 user2 (by decide) (by decide)
